import Mathlib

/-!
Shallow embedding of the slonk rocket-engine test-stand controller
(rice-eclipse resfet-controller-2): the outbound telemetry channel of
src/outgoing.rs and the orchestrator / client handler of src/main.rs,
together with theorems about the dashboard channel, the send log, the
message serialization schema, and the startup and accept-loop behavior.
-/

namespace Slonk

/-- JSON values as produced by the serde serializer (serde_json is an external
collaborator of the repository; objects keep the field order the serializer
emits, with the internal tag "type" first). -/
inductive Json where
  | str (s : String)
  | num (n : Nat)
  | bool (b : Bool)
  | arr (elems : List Json)
  | obj (fields : List (String × Json))

/-- The double-quote character. -/
def dq : String := String.singleton (Char.ofNat 34)

/-- The backslash character. -/
def bs : String := String.singleton (Char.ofNat 92)

/-- Escape of a single character inside a JSON string literal. -/
def escapeChar (c : Char) : String :=
  if c = Char.ofNat 34 then bs ++ dq
  else if c = Char.ofNat 92 then bs ++ bs
  else if c = Char.ofNat 10 then bs ++ "n"
  else String.singleton c

/-- Escape of a JSON string body. -/
def escapeString (s : String) : String :=
  String.join (s.toList.map escapeChar)

mutual

/-- Compact rendering of a JSON value, in the style of serde_json to_writer. -/
def Json.render : Json → String
  | .str s => dq ++ escapeString s ++ dq
  | .num n => toString n
  | .bool b => if b then "true" else "false"
  | .arr xs => "[" ++ renderElems xs ++ "]"
  | .obj fs => "\x7b" ++ renderFields fs ++ "\x7d"

/-- Rendering of the comma-separated elements of a JSON array. -/
def renderElems : List Json → String
  | [] => ""
  | [x] => Json.render x
  | x :: y :: xs => Json.render x ++ "," ++ renderElems (y :: xs)

/-- Rendering of the comma-separated fields of a JSON object. -/
def renderFields : List (String × Json) → String
  | [] => ""
  | [(k, v)] => dq ++ escapeString k ++ dq ++ ":" ++ Json.render v
  | (k, v) :: f :: fs =>
      dq ++ escapeString k ++ dq ++ ":" ++ Json.render v ++ "," ++ renderFields (f :: fs)

end

/-- Field lookup on a JSON value: some value when it is an object holding the
key, none otherwise. -/
def Json.getField : Json → String → Option Json
  | .obj fs, key => List.lookup key fs
  | _, _ => none

/-- Wall-clock timestamps as serde serializes SystemTime (seconds and
nanoseconds since the UNIX epoch). -/
structure SystemTime where
  secs_since_epoch : Nat
  nanos_since_epoch : Nat

/-- An individual reading on a sensor (src/outgoing.rs lines 53 to 62). -/
structure SensorReading where
  sensor_id : Nat
  reading : Nat
  time : SystemTime

/-- Modelled from the spec: the configuration module (src/config.rs) is not
among the sources, and the claims only touch its serialized form, so a
configuration is abstracted as the JSON value its serializer produces. -/
structure Configuration where
  json : Json

/-- The set of error causes that can be displayed to the dashboard
(src/outgoing.rs lines 64 to 84). -/
inductive ErrorCause where
  | Malformed (original_message : String)
  | SensorFail (group_id : Nat) (sensor_id : Nat)
  | Permission

/-- The set of messages which can be sent from the controller to the dashboard
(src/outgoing.rs lines 10 to 51). -/
inductive Message where
  | Ready
  | Config (config : Configuration)
  | SensorValue (group_id : Nat) (readings : List SensorReading)
  | DriverValue (values : List Bool)
  | Display (message : String)
  | Error (cause : ErrorCause) (diagnostic : String)

/-- Serialization of a SystemTime, following serde. -/
def SystemTime.toJson (t : SystemTime) : Json :=
  .obj [("secs_since_epoch", .num t.secs_since_epoch),
        ("nanos_since_epoch", .num t.nanos_since_epoch)]

/-- Serialization of a SensorReading, following the serde derive on the struct
in src/outgoing.rs. -/
def SensorReading.toJson (r : SensorReading) : Json :=
  .obj [("sensor_id", .num r.sensor_id),
        ("reading", .num r.reading),
        ("time", r.time.toJson)]

/-- Serialization of an ErrorCause, following the serde derive with the
internal tag named type. -/
def ErrorCause.toJson : ErrorCause → Json
  | .Malformed s => .obj [("type", .str "Malformed"), ("original_message", .str s)]
  | .SensorFail g sid =>
      .obj [("type", .str "SensorFail"), ("group_id", .num g), ("sensor_id", .num sid)]
  | .Permission => .obj [("type", .str "Permission")]

/-- Serialization of a Message, following the serde derive with the internal
tag named type on the enum in src/outgoing.rs. -/
def Message.toJson : Message → Json
  | .Ready => .obj [("type", .str "Ready")]
  | .Config c => .obj [("type", .str "Config"), ("config", c.json)]
  | .SensorValue g rs =>
      .obj [("type", .str "SensorValue"), ("group_id", .num g),
            ("readings", .arr (rs.map SensorReading.toJson))]
  | .DriverValue vs =>
      .obj [("type", .str "DriverValue"), ("values", .arr (vs.map Json.bool))]
  | .Display m => .obj [("type", .str "Display"), ("message", .str m)]
  | .Error c d =>
      .obj [("type", .str "Error"), ("cause", c.toJson), ("diagnostic", .str d)]

/-- The string written by serde_json to_writer for a message. -/
def Message.serialize (m : Message) : String :=
  m.toJson.render

/-- The value of the type tag of each Message variant. -/
def Message.typeTag : Message → String
  | .Ready => "Ready"
  | .Config _ => "Config"
  | .SensorValue _ _ => "SensorValue"
  | .DriverValue _ => "DriverValue"
  | .Display _ => "Display"
  | .Error _ _ => "Error"

/-- Index of the constructor of a Message, to state that the type tag
uniquely identifies the variant. -/
def Message.ctorIdx : Message → Nat
  | .Ready => 0
  | .Config _ => 1
  | .SensorValue _ _ => 2
  | .DriverValue _ => 3
  | .Display _ => 4
  | .Error _ _ => 5

/-- The documented payload fields of each Message variant. -/
def Message.documentedFields : Message → List String
  | .Ready => []
  | .Config _ => ["config"]
  | .SensorValue _ _ => ["group_id", "readings"]
  | .DriverValue _ => ["values"]
  | .Display _ => ["message"]
  | .Error _ _ => ["cause", "diagnostic"]

/-- The error type of the controller; only the constructors the handled claims
reach are modelled (I/O errors carry an abstract error code, argument errors
carry their message). -/
inductive ControllerError where
  | Args (msg : String)
  | Io (code : Nat)

/-- A channel which can write to the dashboard (src/outgoing.rs lines 93 to
101): an optional writer for the dashboard, and the log of all messages that
are sent. The writer type C is kept abstract as in the source; the message
log writer is modelled by the list of strings appended to it so far. -/
structure DashChannel (C : Type) where
  dash_channel : Option C
  message_log : List String

/-- Outcomes of the I/O operations one call to send may attempt: whether the
serde write to the dashboard succeeds, the results of the three message-log
writes (none is success, some e an I/O error with code e), and the current
wall-clock time in nanoseconds since the UNIX epoch. -/
structure SendIo where
  dashWriteOk : Bool
  timeWrite : Option Nat
  msgWrite : Option Nat
  newlineWrite : Option Nat
  nowNanos : Nat

/-- Construct a new DashChannel with no outgoing channel (src/outgoing.rs
lines 104 to 110). -/
def DashChannel.new (C : Type) : DashChannel C :=
  { dash_channel := none, message_log := [] }

/-- Write a message to the dashboard (src/outgoing.rs lines 125 to 149).
When a subscriber is present and the serde write to it succeeds, the log
receives the timestamp and a comma, then the serialized message, then a
newline, each write failing hard through the question-mark operator; when the
serde write fails the subscriber is cleared and the call still succeeds; with
no subscriber nothing happens. Each log write is modelled as atomic: a
failing write appends nothing. -/
def DashChannel.send {C : Type} (ch : DashChannel C) (message : Message)
    (env : SendIo) : DashChannel C × Except ControllerError Unit :=
  match ch.dash_channel with
  | some _ =>
    if env.dashWriteOk then
      match env.timeWrite with
      | some e => (ch, .error (.Io e))
      | none =>
        let ch1 : DashChannel C :=
          { ch with message_log := ch.message_log ++ [toString env.nowNanos ++ ","] }
        match env.msgWrite with
        | some e => (ch1, .error (.Io e))
        | none =>
          let ch2 : DashChannel C :=
            { ch1 with message_log := ch1.message_log ++ [message.serialize] }
          match env.newlineWrite with
          | some e => (ch2, .error (.Io e))
          | none =>
            ({ ch2 with message_log := ch2.message_log ++ ["\n"] }, .ok ())
    else
      ({ ch with dash_channel := none }, .ok ())
  | none => (ch, .ok ())

/-- Determine whether this channel has a target to send messages to
(src/outgoing.rs lines 153 to 155). -/
def DashChannel.has_target {C : Type} (ch : DashChannel C) : Bool :=
  ch.dash_channel.isSome

/-- Set the outgoing channel for this stream (src/outgoing.rs lines 158 to
160): the argument is a writer, and the slot is unconditionally overwritten
with it. -/
def DashChannel.set_channel {C : Type} (ch : DashChannel C) (channel : C) :
    DashChannel C :=
  { ch with dash_channel := some channel }

/-- Modelled from the spec: the incoming module (src/incoming.rs) is not among
the sources; the dashboard commands are the four of the incoming command
envelope. Their payloads do not influence the handled claims. -/
inductive Command where
  | Ready
  | Actuate (driver_id : Nat) (value : Bool)
  | Ignition
  | EmergencyStop

/-- Outcome of one call to the command parser as matched by handle_client
(src/main.rs lines 278 to 297): a parsed command, a malformed frame carrying
its original bytes, end of stream at a frame boundary, or a lower-level read
error carrying an abstract error code. -/
inductive ParseOutcome where
  | ok (cmd : Command)
  | malformed (s : String)
  | sourceClosed
  | ioErr (code : Nat)

/-- The command loop of handle_client (src/main.rs lines 273 to 312), run over
the successive parser outcomes of one connection: a parsed command is handed
to handle_command and the loop continues even when it errors; a malformed
frame is logged as a warning and the loop continues; a closed source returns
success; a lower-level read error is returned as an I/O error. An exhausted
outcome list models the reader slot becoming none, which the loop also treats
as a disconnect returning success. -/
def commandLoop : List ParseOutcome → Except ControllerError Unit
  | [] => .ok ()
  | .ok _ :: rest => commandLoop rest
  | .malformed _ :: rest => commandLoop rest
  | .sourceClosed :: _ => .ok ()
  | .ioErr e :: _ => .error (.Io e)

/-- The messages the command loop of handle_client writes to the dashboard
channel, in order. Executing a parsed command happens in handle_command
(src/execution.rs), which is not among the sources, so the messages it sends
for a command are abstracted as the function hc; the loop itself sends
nothing on a malformed frame, a disconnect, or a read error. -/
def commandLoopTrace (hc : Command → List Message) :
    List ParseOutcome → List Message
  | [] => []
  | .ok c :: rest => hc c ++ commandLoopTrace hc rest
  | .malformed _ :: rest => commandLoopTrace hc rest
  | .sourceClosed :: _ => []
  | .ioErr _ :: _ => []

/-- Result of handle_client (src/main.rs lines 262 to 313) over the parser
outcomes of one connection. The initial Config send writes to the channel the
accept loop just installed; its own send-log failure mode is not what the
handled claims are about, so it is taken as succeeding here. -/
def handle_client (outcomes : List ParseOutcome) : Except ControllerError Unit :=
  commandLoop outcomes

/-- The messages handle_client writes to the dashboard channel, in order: the
Config message carrying the full configuration first (src/main.rs line 271),
then whatever the command loop sends. -/
def handle_client_trace (config : Configuration) (hc : Command → List Message)
    (outcomes : List ParseOutcome) : List Message :=
  Message.Config config :: commandLoopTrace hc outcomes

/-- The accept loop of main (src/main.rs lines 214 to 240): each accepted
client is installed as the subscriber and handled; the call site reads
handle_client(...)? so an error from handle_client is propagated by the
question-mark operator out of the loop, despite the surrounding comment about
keeping the port open. Each client connection is represented by the list of
parser outcomes it yields. -/
def acceptLoop : List (List ParseOutcome) → Except ControllerError Unit
  | [] => .ok ()
  | c :: rest =>
    match handle_client c with
    | .error e => .error e
    | .ok _ => acceptLoop rest

/-- How many clients the accept loop actually handles before it stops (all of
them on success, or up to and including the first client whose handler
returns an error). -/
def clientsHandled : List (List ParseOutcome) → Nat
  | [] => 0
  | c :: rest =>
    match handle_client c with
    | .error _ => 1
    | .ok _ => 1 + clientsHandled rest

/-- A directory path, as its list of components. -/
abbrev DirPath := List String

/-- The filesystem behavior of std create_dir_all as called by main
(src/main.rs line 48): the directory and all of its missing ancestors are
created; absent operating-system failures the call succeeds. The filesystem
is modelled as the list of directories that exist. -/
def createDirAll (p : DirPath) (fs : List DirPath) :
    Except ControllerError (List DirPath) :=
  .ok (fs ++ p.inits.filter (fun q => !q.isEmpty && !fs.contains q))

/-- Outcome of the argument handling of main: the two positional paths and
whether the warning about extra arguments is emitted. -/
structure ArgsOutcome where
  json_path : String
  logs_path : String
  extraWarning : Bool

/-- The argument handling of main (src/main.rs lines 39 to 58): the first
argument is the configuration JSON path and the second the logs directory,
each missing one a fatal Args error; more than two arguments only produce a
warning. -/
def parseArgs (args : List String) : Except ControllerError ArgsOutcome :=
  match args.get? 0 with
  | none => .error (.Args "No configuration JSON path given")
  | some jp =>
    match args.get? 1 with
    | none => .error (.Args "No logs path given")
    | some lp =>
      .ok { json_path := jp, logs_path := lp, extraWarning := decide (2 < args.length) }

/-! Theorems about the telemetry channel. -/

/-- C1: if send is called while a subscriber is set and the write of the
message to that subscriber fails, then send clears the subscriber, so
has_target returns false afterwards, and still returns success: the failed
dashboard write is not an error visible to the caller. -/
theorem C1_dash_write_failure_clears_subscriber {C : Type} (ch : DashChannel C)
    (m : Message) (env : SendIo) (hsub : ch.dash_channel.isSome = true)
    (hfail : env.dashWriteOk = false) :
    (ch.send m env).2 = Except.ok () ∧ (ch.send m env).1.has_target = false := by
  obtain ⟨c, hc⟩ := Option.isSome_iff_exists.mp hsub
  simp [DashChannel.send, hc, hfail, DashChannel.has_target]

/-- Concrete channel with a subscriber, for evaluating the send theorems. -/
def chSub : DashChannel Unit :=
  { dash_channel := some (), message_log := ["old"] }

/-- Send environment where the dashboard write fails. -/
def envDashFail : SendIo :=
  { dashWriteOk := false, timeWrite := none, msgWrite := none,
    newlineWrite := none, nowNanos := 5 }

/-- Witness for C1 at a concrete channel, message and environment. -/
theorem C1_witness :
    (chSub.send Message.Ready envDashFail).2 = Except.ok () ∧
      (chSub.send Message.Ready envDashFail).1.has_target = false :=
  C1_dash_write_failure_clears_subscriber chSub Message.Ready envDashFail
    (by decide) (by decide)

/-- C2: when send successfully writes the message to the subscriber, it
appends to the send log exactly the unix-nanosecond timestamp, a comma, the
serialized message, and a newline, in that order; and whichever of those
send-log writes fails first, send returns that I/O error to the caller. -/
theorem C2_send_log_format {C : Type} (ch : DashChannel C) (m : Message)
    (env : SendIo) (hsub : ch.dash_channel.isSome = true)
    (hok : env.dashWriteOk = true) :
    (env.timeWrite = none → env.msgWrite = none → env.newlineWrite = none →
      (ch.send m env).1.message_log =
          ch.message_log ++ [toString env.nowNanos ++ ",", m.serialize, "\n"] ∧
        (ch.send m env).2 = Except.ok ()) ∧
      (∀ e, env.timeWrite = some e →
        (ch.send m env).2 = Except.error (ControllerError.Io e)) ∧
      (∀ e, env.timeWrite = none → env.msgWrite = some e →
        (ch.send m env).2 = Except.error (ControllerError.Io e)) ∧
      (∀ e, env.timeWrite = none → env.msgWrite = none →
        env.newlineWrite = some e →
        (ch.send m env).2 = Except.error (ControllerError.Io e)) := by
  obtain ⟨c, hc⟩ := Option.isSome_iff_exists.mp hsub
  refine ⟨fun ht hm hn => ?_, fun e ht => ?_, fun e ht hm => ?_,
    fun e ht hm hn => ?_⟩ <;>
    simp [DashChannel.send, hc, hok, ht] <;> simp_all [DashChannel.send]

/-- Send environment where every write succeeds, at time 5 nanoseconds. -/
def envAllOk : SendIo :=
  { dashWriteOk := true, timeWrite := none, msgWrite := none,
    newlineWrite := none, nowNanos := 5 }

/-- Witness for C2 at a concrete channel, message and environment. -/
theorem C2_witness :
    (chSub.send Message.Ready envAllOk).1.message_log =
        chSub.message_log ++
          [toString envAllOk.nowNanos ++ ",", Message.Ready.serialize, "\n"] ∧
      (chSub.send Message.Ready envAllOk).2 = Except.ok () :=
  (C2_send_log_format chSub Message.Ready envAllOk (by decide) (by decide)).1
    rfl rfl rfl

/-- C9: when send is called with no subscriber set, it returns success and
leaves both the channel and the send log completely unchanged. -/
theorem C9_send_without_subscriber {C : Type} (ch : DashChannel C)
    (m : Message) (env : SendIo) (hnone : ch.dash_channel = none) :
    ch.send m env = (ch, Except.ok ()) := by
  simp [DashChannel.send, hnone]

/-- Concrete channel without a subscriber. -/
def chNoSub : DashChannel Unit :=
  { dash_channel := none, message_log := ["old"] }

/-- Witness for C9 at a concrete channel, message and environment. -/
theorem C9_witness : chNoSub.send Message.Ready envAllOk = (chNoSub, Except.ok ()) :=
  C9_send_without_subscriber chNoSub Message.Ready envAllOk rfl

/-- C10: the send log records only delivered messages: when the write to the
subscriber fails, send appends nothing to the send log; conversely, whenever
a call to send changes the send log, a subscriber was present and the write
of the message to it succeeded. -/
theorem C10_log_only_delivered {C : Type} (ch : DashChannel C) (m : Message)
    (env : SendIo) :
    (env.dashWriteOk = false → (ch.send m env).1.message_log = ch.message_log) ∧
      ((ch.send m env).1.message_log ≠ ch.message_log →
        ch.dash_channel.isSome = true ∧ env.dashWriteOk = true) := by
  constructor
  · intro hfail
    cases hc : ch.dash_channel <;> simp [DashChannel.send, hc, hfail]
  · intro hchanged
    by_contra hcon
    rw [not_and_or] at hcon
    apply hchanged
    rcases hcon with h | h
    · have hc : ch.dash_channel = none := by
        cases hc : ch.dash_channel <;> simp [hc] at h ⊢
      simp [DashChannel.send, hc]
    · have hfail : env.dashWriteOk = false := by
        cases hb : env.dashWriteOk <;> simp [hb] at h ⊢
      cases hc : ch.dash_channel <;> simp [DashChannel.send, hc, hfail]

/-- Witness for C10 at a concrete channel, message and environment. -/
theorem C10_witness :
    (chSub.send Message.Ready envDashFail).1.message_log = chSub.message_log :=
  (C10_log_only_delivered chSub Message.Ready envDashFail).1 rfl

/-- Channel used to refute the none branch of C8: in main the writer type is
instantiated so that the claimed set_channel argument none is expressible. -/
def chOpt : DashChannel (Option Unit) := DashChannel.new (Option Unit)

/-- C8 counterexample: set_channel takes a bare writer and unconditionally
stores some of it, so the claimed clearing call with none does not leave the
channel without a target: has_target is true afterwards, refuting the claim
that after set_channel with none, has_target returns false. -/
theorem C8_counterexample :
    ¬ ((chOpt.set_channel none).has_target = false) := by decide

/-- C8 (amended): set_channel accepts a writer and unconditionally installs it
as the subscriber, discarding the prior writer if any: afterwards has_target
returns true and the slot holds exactly the new writer. The source offers no
none argument; the subscriber is cleared only by a failed write inside send. -/
theorem C8_set_channel_installs {C : Type} (ch : DashChannel C) (c : C) :
    (ch.set_channel c).has_target = true ∧
      (ch.set_channel c).dash_channel = some c := by
  simp [DashChannel.set_channel, DashChannel.has_target]

/-! Theorems about the outgoing message schema. -/

/-- C5: every outgoing Message variant serializes to a JSON object whose type
tag uniquely identifies the variant and which contains all documented fields;
a SensorValue carries group_id and a readings array whose elements each have
sensor_id, reading, and a time object with secs_since_epoch and
nanos_since_epoch. -/
theorem C5_serialization_tagged (m : Message) :
    m.toJson.getField "type" = some (Json.str m.typeTag) ∧
      (∀ m2 : Message, m.typeTag = m2.typeTag → m.ctorIdx = m2.ctorIdx) ∧
      (∀ k ∈ m.documentedFields, (m.toJson.getField k).isSome = true) ∧
      (∀ g rs, m = Message.SensorValue g rs →
        m.toJson.getField "group_id" = some (Json.num g) ∧
          m.toJson.getField "readings" =
            some (Json.arr (rs.map SensorReading.toJson)) ∧
          ∀ r ∈ rs,
            (SensorReading.toJson r).getField "sensor_id" =
                some (Json.num r.sensor_id) ∧
              (SensorReading.toJson r).getField "reading" =
                some (Json.num r.reading) ∧
              (SensorReading.toJson r).getField "time" =
                some (Json.obj
                  [("secs_since_epoch", Json.num r.time.secs_since_epoch),
                   ("nanos_since_epoch", Json.num r.time.nanos_since_epoch)])) := by
  refine ⟨?_, ?_, ?_, ?_⟩
  · cases m <;> rfl
  · intro m2 htag
    cases m <;> cases m2 <;> simp [Message.typeTag] at htag ⊢ <;> rfl
  · intro k hk
    cases m <;> fin_cases hk <;> rfl
  · rintro g rs rfl
    refine ⟨rfl, rfl, fun r _ => ⟨rfl, rfl, ?_⟩⟩
    simp [SensorReading.toJson, SystemTime.toJson, Json.getField, List.lookup]

/-- Concrete sensor reading for the C5 witness. -/
def readingW : SensorReading :=
  { sensor_id := 0, reading := 3456,
    time := { secs_since_epoch := 1651355351, nanos_since_epoch := 534000000 } }

/-- Concrete SensorValue message for the C5 witness. -/
def msgSensorW : Message := Message.SensorValue 0 [readingW]

/-- Witness for C5 at a concrete SensorValue message, also discharging the
variant equation and membership hypotheses at concrete inputs. -/
theorem C5_witness :
    msgSensorW.toJson.getField "type" = some (Json.str msgSensorW.typeTag) ∧
      (SensorReading.toJson readingW).getField "reading" =
        some (Json.num readingW.reading) :=
  ⟨(C5_serialization_tagged msgSensorW).1,
    (((C5_serialization_tagged msgSensorW).2.2.2 0 [readingW] rfl).2.2 readingW
      (by simp [readingW])).2.1⟩

/-! Theorems about the orchestrator and the client handler. -/

/-- C3, evaluated at the failing input: a client whose read fails with a
lower-level I/O error makes handle_client return that error, and the
question-mark operator at the accept-loop call site propagates it, so the
loop terminates with the error and the second waiting client is never
served. This contradicts the claim (and the comment in the source about
keeping the port open even in error cases): the dashboard-link I/O error is
fatal to the process. -/
theorem C3_io_error_terminates_accept_loop :
    acceptLoop [[ParseOutcome.ioErr 7], [ParseOutcome.sourceClosed]] =
        Except.error (ControllerError.Io 7) ∧
      clientsHandled [[ParseOutcome.ioErr 7], [ParseOutcome.sourceClosed]] = 1 :=
  ⟨rfl, rfl⟩

/-- Abstract handle_command send behavior used at the C4 counterexample:
what handle_command sends is irrelevant because no command parses there. -/
def hcNone : Command → List Message := fun _ => []

/-- C4 counterexample: at the concrete malformed frame xyz, the command loop
sends nothing at all to the dashboard, so in particular no Error message with
cause Malformed carrying the original bytes is sent, refuting the claim; the
loop merely logs a warning and reads on. -/
theorem C4_counterexample :
    commandLoopTrace hcNone
        [ParseOutcome.malformed "xyz", ParseOutcome.sourceClosed] = [] ∧
      ¬ ∃ d, Message.Error (ErrorCause.Malformed "xyz") d ∈
        commandLoopTrace hcNone
          [ParseOutcome.malformed "xyz", ParseOutcome.sourceClosed] := by
  refine ⟨rfl, ?_⟩
  rintro ⟨d, hd⟩
  simp [commandLoopTrace] at hd

/-- C4 (amended): for every malformed command frame received from the
dashboard, the controller logs a warning and continues reading the next
command, the command loop neither terminates nor changes its result, and no
reply of any kind is sent to the dashboard for that frame. -/
theorem C4_malformed_warn_and_continue (s : String) (rest : List ParseOutcome)
    (hc : Command → List Message) :
    commandLoop (ParseOutcome.malformed s :: rest) = commandLoop rest ∧
      commandLoopTrace hc (ParseOutcome.malformed s :: rest) =
        commandLoopTrace hc rest :=
  ⟨rfl, rfl⟩

/-- C6: for every accepted dashboard connection, the first message the client
handler sends to the new subscriber is the Config message carrying the full
loaded configuration; no other message precedes it in the handler trace. -/
theorem C6_first_message_config (config : Configuration)
    (hc : Command → List Message) (outcomes : List ParseOutcome) :
    (handle_client_trace config hc outcomes).head? =
      some (Message.Config config) :=
  rfl

/-- C7 counterexample: with only the directory a existing and logs path
a/b/c, the parent a/b is missing, yet the create_dir_all call of main
succeeds and creates every missing ancestor rather than returning the fatal
error the claim requires for a missing parent. -/
theorem C7_counterexample :
    (∃ fs2, createDirAll ["a", "b", "c"] [["a"]] = Except.ok fs2 ∧
        ["a", "b"] ∈ fs2) ∧
      ¬ (["a", "b"] ∈ ([["a"]] : List DirPath)) := by
  refine ⟨⟨_, rfl, by decide⟩, by decide⟩

/-- C7 (amended): at startup the logs directory named by the second CLI
argument is created if missing together with every missing parent directory
in its path (create_dir_all), which is not an error; additional CLI
arguments beyond the two positional ones only set the warning and are
otherwise ignored, while a missing positional argument is a fatal Args
error. -/
theorem C7_startup_args_and_dirs (args : List String) (fs : List DirPath)
    (p : DirPath) (jp lp : String) (h0 : args.get? 0 = some jp)
    (h1 : args.get? 1 = some lp) :
    parseArgs args =
        Except.ok
          { json_path := jp, logs_path := lp,
            extraWarning := decide (2 < args.length) } ∧
      ∃ fs2, createDirAll p fs = Except.ok fs2 ∧
        ∀ q ∈ p.inits, q ≠ [] → q ∈ fs2 := by
  have h0g : args[0]? = some jp := by simpa using h0
  have h1g : args[1]? = some lp := by simpa using h1
  refine ⟨by simp [parseArgs, h0g, h1g], ⟨_, rfl, ?_⟩⟩
  intro q hq hne
  show q ∈ fs ++ _
  by_cases hmem : q ∈ fs
  · exact List.mem_append_left _ hmem
  · refine List.mem_append_right _ (List.mem_filter.mpr ⟨hq, ?_⟩)
    simp [List.isEmpty_iff, List.elem_eq_mem, hne, hmem]

/-- Witness for C7 at concrete arguments and a concrete filesystem. -/
theorem C7_witness :
    parseArgs ["cfg.json", "logs", "extra"] =
        Except.ok
          { json_path := "cfg.json", logs_path := "logs",
            extraWarning :=
              decide (2 < (["cfg.json", "logs", "extra"] : List String).length) } ∧
      ∃ fs2, createDirAll ["a", "b", "c"] [["a"]] = Except.ok fs2 ∧
        ∀ q ∈ (["a", "b", "c"] : DirPath).inits, q ≠ [] → q ∈ fs2 :=
  C7_startup_args_and_dirs ["cfg.json", "logs", "extra"] [["a"]]
    ["a", "b", "c"] "cfg.json" "logs" rfl rfl

end Slonk
